import Mathlib

/-!
Shallow embedding of the context-stack engine and send-transaction
coordinator of the snippets browser extension.

Sources embedded here:
* `src/unnamed/part_002` (`src/engine/contextStack.ts`): `normalizeText`,
  `ContextStackEngine.addSnippet / removeSnippet / updateSnippet /
  reorderSnippet / clear`, `formatCompiledContext`.
* `src/src/shared/types.ts`: `Snippet`, `ContextStackState`,
  `StorageLimits`, `DEFAULT_STORAGE_LIMITS`.
* `src/unnamed/part_004` (content script): the send-transaction
  coordinator (`beginSendTransaction`, `resolveSendTransaction`,
  `scheduleFallbackClear`, `clearContextAfterSend`, and the
  `prompt-request-finished` / `context-expired` handlers installed by
  `installChatGPTInvisibleContextPatch`).

Modelling conventions:
* The engine methods read the stored state, compute the next state and
  persist it via `storageManager.setStore` before returning it.  Each
  method is embedded as a pure function from the prior (stored) state to
  the next (stored) state; `setStore` is called exactly in the branches
  where the returned state differs from the prior one, so the returned
  state is always the stored state.
* The impure `generateId()` and `now()` calls are passed in as explicit
  `newId`/`time` arguments.
* JavaScript numbers holding lengths, char counts and timestamps are
  embedded as `Nat`; user-supplied indices (`reorderSnippet`) as `Int`
  since JavaScript callers may pass negatives, with `Array.prototype.splice`
  index clamping made explicit.
* JS `string.length` counts UTF-16 code units, Lean `String.length`
  counts code points; they agree on all texts considered here.
-/

set_option maxRecDepth 400000

namespace Snippets

/-- JS `Array.prototype.join(sep)`: empty string on `[]`, otherwise the
elements interleaved with `sep`. -/
def joinWith (sep : String) : List String → String
  | [] => ""
  | [x] => x
  | x :: y :: xs => x ++ sep ++ joinWith sep (y :: xs)

/-- `Snippet` from `src/src/shared/types.ts`. -/
structure Snippet where
  id : String
  text : String
  sourceUrl : String
  timestamp : Nat
  charCount : Nat
deriving DecidableEq, Repr

/-- `ContextStackState` from `src/src/shared/types.ts`. -/
structure ContextStackState where
  snippets : List Snippet
  totalChars : Nat
  updatedAt : Nat
deriving DecidableEq, Repr

/-- `StorageLimits` from `src/src/shared/types.ts`. -/
structure StorageLimits where
  maxSnippets : Nat
  maxTotalChars : Nat
deriving DecidableEq, Repr

/-- `DEFAULT_STORAGE_LIMITS` from `src/src/shared/types.ts`. -/
def DEFAULT_STORAGE_LIMITS : StorageLimits :=
  { maxSnippets := 75, maxTotalChars := 30000 }

/-- Strip leading and trailing whitespace from a character list. -/
def trimChars (l : List Char) : List Char :=
  ((l.dropWhile Char.isWhitespace).reverse.dropWhile Char.isWhitespace).reverse

/-- JS `text.trim()`: remove whitespace from both ends of the string.
(`Char.isWhitespace` covers space, tab, carriage return and newline; the
JS whitespace set additionally has exotic Unicode spaces, which none of
the texts considered here contain.) -/
def jsTrim (text : String) : String := String.mk (trimChars text.data)

/-- `normalizeText` from the engine: `text.trim()`. -/
def normalizeText (text : String) : String := jsTrim text

/-- `array.reduce((sum, item) => sum + item.charCount, 0)`. -/
def sumCharCounts (snippets : List Snippet) : Nat :=
  snippets.foldl (fun sum item => sum + item.charCount) 0

/-- JS `array.slice(-m)` : the last `m` elements; the whole array when
`m = 0` (because `-0 = 0` and `slice(0)` copies everything). -/
def sliceLast (l : List Snippet) (m : Nat) : List Snippet :=
  if m = 0 then l else l.drop (l.length - m)

/-- Result shape of `ContextStackEngine.addSnippet`:
`{ ok: boolean; reason?: string; state: ContextStackState }`. -/
structure AddResult where
  ok : Bool
  reason : Option String
  state : ContextStackState
deriving DecidableEq, Repr

/-- `ContextStackEngine.addSnippet`.  On each rejection the prior state is
returned and nothing is stored (`setStore` only runs in the success
branch); on success the appended-and-truncated state is stored and
returned. -/
def addSnippet (limits : StorageLimits) (state : ContextStackState)
    (inputText inputSourceUrl : String) (newId : String) (time : Nat) :
    AddResult :=
  let text := normalizeText inputText
  if text.length < 3 then
    { ok := false, reason := some "Selection too short", state := state }
  else if text.length > 10000 then
    { ok := false, reason := some "Selection too large", state := state }
  else if state.snippets.any (fun existing => existing.text = text) then
    { ok := false, reason := some "Duplicate snippet", state := state }
  else
    let snippet : Snippet :=
      { id := newId, text := text, sourceUrl := inputSourceUrl,
        timestamp := time, charCount := text.length }
    let nextSnippets := sliceLast (state.snippets ++ [snippet]) limits.maxSnippets
    let totalChars := sumCharCounts nextSnippets
    if totalChars > limits.maxTotalChars then
      { ok := false, reason := some "Context stack char limit reached", state := state }
    else
      { ok := true, reason := none,
        state := { snippets := nextSnippets, totalChars := totalChars, updatedAt := time } }

/-- `ContextStackEngine.removeSnippet`. -/
def removeSnippet (state : ContextStackState) (id : String) (time : Nat) :
    ContextStackState :=
  let snippets := state.snippets.filter (fun snippet => snippet.id ≠ id)
  { snippets := snippets, totalChars := sumCharCounts snippets, updatedAt := time }

/-- `ContextStackEngine.updateSnippet`. -/
def updateSnippet (state : ContextStackState) (id : String) (nextText : String)
    (time : Nat) : ContextStackState :=
  let text := normalizeText nextText
  let snippets := state.snippets.map (fun snippet =>
    if snippet.id ≠ id then snippet
    else { snippet with text := text, charCount := text.length, timestamp := time })
  { snippets := snippets, totalChars := sumCharCounts snippets, updatedAt := time }

/-- JS `Array.prototype.splice` start-index normalization: a negative
start counts from the end (clamped at 0), a non-negative start is clamped
at `len`. -/
def spliceStart (len : Nat) (start : Int) : Nat :=
  if start < 0 then ((len : Int) + start).toNat else min start.toNat len

/-- `ContextStackEngine.reorderSnippet`: extract one element with
`splice(startIndex, 1)`; if nothing was extracted return the prior state,
otherwise reinsert it with `splice(endIndex, 0, moved)` and recompute
`totalChars`. -/
def reorderSnippet (state : ContextStackState) (startIndex endIndex : Int)
    (time : Nat) : ContextStackState :=
  let k := spliceStart state.snippets.length startIndex
  match state.snippets[k]? with
  | none => state
  | some moved =>
    let removed := state.snippets.eraseIdx k
    let snippets := removed.insertIdx (spliceStart removed.length endIndex) moved
    { snippets := snippets, totalChars := sumCharCounts snippets, updatedAt := time }

/-- `ContextStackEngine.clear`. -/
def clear (time : Nat) : ContextStackState :=
  { snippets := [], totalChars := 0, updatedAt := time }

/-- `formatCompiledContext` from the engine. -/
def formatCompiledContext (snippets : List Snippet) : String :=
  let body := joinWith "\n\n" (snippets.enum.map
    (fun p => "[Snippet " ++ toString (p.1 + 1) ++ "]\n" ++ p.2.text))
  joinWith "\n"
    ["### SELECTED CONTEXT (User-Collected)",
     "IMPORTANT: Do not let this context influence anything outside this specific message/prompt request.",
     "The following snippets were highlighted from earlier conversation:",
     "",
     body,
     "",
     "User Question:"]

/-- Does `l` start with the segment `seg`? (model of a substring test). -/
def startsWithSeg : List Char → List Char → Bool
  | _, [] => true
  | [], _ :: _ => false
  | a :: l, b :: seg => a == b && startsWithSeg l seg

/-- Does `l` contain `seg` as a contiguous segment? (model of JS
`String.prototype.includes`). -/
def containsSeg : List Char → List Char → Bool
  | [], seg => seg.isEmpty
  | a :: l, seg => startsWithSeg (a :: l) seg || containsSeg l seg

/-- Spec-side fixed header of the compiled context format (§6 of the
spec), up to and including the blank line that precedes the body. -/
def specHeader : String :=
  "### SELECTED CONTEXT (User-Collected)\nIMPORTANT: Do not let this context influence anything outside this specific message/prompt request.\nThe following snippets were highlighted from earlier conversation:\n\n"

/-- Spec-side fixed footer of the compiled context format: a blank line
then the `User Question:` line. -/
def specFooter : String := "\n\nUser Question:"

/-- Spec-side body: each snippet in input order as `[Snippet N]`
(1-based) followed by its raw text, consecutive snippets separated by a
blank line. -/
def specBody : Nat → List Snippet → String
  | _, [] => ""
  | n, [s] => "[Snippet " ++ toString n ++ "]\n" ++ s.text
  | n, s :: s2 :: rest =>
    "[Snippet " ++ toString n ++ "]\n" ++ s.text ++ "\n\n" ++ specBody (n + 1) (s2 :: rest)

/-- Spec-side compiled context: fixed header, numbered body, fixed
footer. -/
def specCompile (snippets : List Snippet) : String :=
  specHeader ++ specBody 1 snippets ++ specFooter

/-- Spec-side "the most recent `m` entries" of a sequence: the oldest
entries are dropped first. -/
def mostRecent (m : Nat) (l : List Snippet) : List Snippet :=
  l.drop (l.length - m)

/-- The snippet a successful `addSnippet` appends: fresh id, current
timestamp, normalized text, computed `charCount`. -/
def candidateSnippet (inputText inputSourceUrl newId : String) (time : Nat) : Snippet :=
  { id := newId, text := normalizeText inputText, sourceUrl := inputSourceUrl,
    timestamp := time, charCount := (normalizeText inputText).length }

/-- The documented data-model invariant:
`totalChars == sum(snippets[*].charCount)`. -/
def charInvariant (s : ContextStackState) : Prop :=
  s.totalChars = sumCharCounts s.snippets

/-- One engine mutation together with the impure inputs
(`generateId()` / `now()`) it consumes. -/
inductive EngineOp where
  | add (text sourceUrl newId : String) (time : Nat)
  | remove (id : String) (time : Nat)
  | update (id : String) (nextText : String) (time : Nat)
  | reorder (startIndex endIndex : Int) (time : Nat)
  | clearAll (time : Nat)
deriving DecidableEq, Repr

/-- The state stored after running one engine operation on the currently
stored state. -/
def applyOp (limits : StorageLimits) (state : ContextStackState) :
    EngineOp → ContextStackState
  | .add t u i tm => (addSnippet limits state t u i tm).state
  | .remove id tm => removeSnippet state id tm
  | .update id t tm => updateSnippet state id t tm
  | .reorder i j tm => reorderSnippet state i j tm
  | .clearAll tm => clear tm

/-- Run a finite sequence of engine operations from an initial state. -/
def runOps (limits : StorageLimits) (init : ContextStackState)
    (ops : List EngineOp) : ContextStackState :=
  ops.foldl (applyOp limits) init

/-- Sequentially add a list of texts to an empty stack, feeding each add
a distinct fresh id and an increasing clock. -/
def addTexts (limits : StorageLimits) (texts : List String) : ContextStackState :=
  texts.enum.foldl
    (fun st p => (addSnippet limits st p.2 "https://example.com" (toString p.1) p.1).state)
    (clear 0)

/-- 76 pairwise-distinct three-character texts `s00`, `s01`, …, `s75`. -/
def texts76 : List String :=
  (List.range 76).map (fun i => "s" ++ toString (i / 10) ++ toString (i % 10))

/-!
Send-transaction coordinator (content script, `src/unnamed/part_004`).

The module-level mutable variables `sendTxCounter`, `activeSendTxId` and
`pendingClearTimers`, plus the context-stack store the coordinator
clears, are collected into `CoordState`.  `pendingClearTimers` keeps the
transaction ids whose fallback `setTimeout` is still scheduled; an entry
is removed exactly when `resolveSendTransaction` calls `clearTimeout` on
it, so a fallback timer can fire if and only if its transaction id is
still in the map.  Messages dispatched to the page bridge via
`dispatchPagePatchEvent` are returned explicitly.
-/

/-- Messages the coordinator sends to the page-network bridge
(`dispatchPagePatchEvent`): `set-context` and `clear-context`. -/
inductive BridgeMsg where
  | setContext (context : String) (txId : Nat)
  | clearContext
deriving DecidableEq, Repr

/-- Coordinator-side mutable state of the content script. -/
structure CoordState where
  sendTxCounter : Nat
  activeSendTxId : Option Nat
  pendingClearTimers : List Nat
  stack : ContextStackState
deriving DecidableEq, Repr

/-- Initial coordinator state: counter 0, no active transaction, no
timers, some stored stack. -/
def initCoord (stack0 : ContextStackState) : CoordState :=
  { sendTxCounter := 0, activeSendTxId := none, pendingClearTimers := [],
    stack := stack0 }

/-- `resolveSendTransaction(txId?)`: with a numeric argument it clears
the active id only on a match and cancels that id's fallback timer; with
no argument it clears the active id and cancels every timer. -/
def resolveSendTransaction (s : CoordState) (txId : Option Nat) : CoordState :=
  match txId with
  | some t =>
    { s with
      activeSendTxId := if s.activeSendTxId = some t then none else s.activeSendTxId,
      pendingClearTimers := s.pendingClearTimers.erase t }
  | none =>
    { s with activeSendTxId := none, pendingClearTimers := [] }

/-- `clearContextAfterSend()`: resolve unconditionally, tell the bridge
to drop its pending context, and clear the context stack. -/
def clearContextAfterSend (s : CoordState) (time : Nat) :
    CoordState × List BridgeMsg :=
  let s1 := resolveSendTransaction s none
  ({ s1 with stack := clear time }, [BridgeMsg.clearContext])

/-- `scheduleFallbackClear(txId)`: register the fallback timer for
`txId`. -/
def scheduleFallbackClear (s : CoordState) (txId : Nat) : CoordState :=
  { s with pendingClearTimers := s.pendingClearTimers ++ [txId] }

/-- `beginSendTransaction(context)`: reuse the active transaction if one
is pending, otherwise assign the next counter value as a fresh txId,
notify the bridge with `set-context`, and schedule the fallback timer.
Returns the transaction id together with the next state and the
dispatched messages. -/
def beginSendTransaction (s : CoordState) (context : String) :
    Nat × CoordState × List BridgeMsg :=
  match s.activeSendTxId with
  | some t => (t, s, [])
  | none =>
    let txId := s.sendTxCounter + 1
    let s1 := { s with sendTxCounter := txId, activeSendTxId := some txId }
    (txId, scheduleFallbackClear s1 txId, [BridgeMsg.setContext context txId])

/-- The fallback `setTimeout` callback of `scheduleFallbackClear` firing
after the TTL.  It runs only if the timer was not cancelled, i.e. iff
`txId` is still in `pendingClearTimers`; the body is
`resolveSendTransaction(txId); clearContextAfterSend();`. -/
def fallbackTimerFire (s : CoordState) (txId : Nat) (time : Nat) :
    CoordState × List BridgeMsg :=
  if txId ∈ s.pendingClearTimers then
    clearContextAfterSend (resolveSendTransaction s (some txId)) time
  else (s, [])

/-- The `prompt-request-finished` branch of the page-patch event
listener: ignored when idle; ignored when the report carries a numeric
txId different from the active one; otherwise resolve and clear. -/
def promptRequestFinished (s : CoordState) (txId : Option Nat) (time : Nat) :
    CoordState × List BridgeMsg :=
  match s.activeSendTxId with
  | none => (s, [])
  | some active =>
    match txId with
    | some n =>
      if n ≠ active then (s, [])
      else clearContextAfterSend (resolveSendTransaction s (some active)) time
    | none => clearContextAfterSend (resolveSendTransaction s (some active)) time

/-- The `context-expired` branch of the page-patch event listener:
`resolveSendTransaction(txId)` for a numeric txId. -/
def contextExpired (s : CoordState) (txId : Nat) : CoordState × List BridgeMsg :=
  (resolveSendTransaction s (some txId), [])

/-- Events driving the coordinator: a user send action, a
`prompt-request-finished` report (txId optional in the event payload), a
fallback timer firing, and a `context-expired` notice from the bridge. -/
inductive CoordEvent where
  | beginSend (context : String)
  | requestFinished (txId : Option Nat) (time : Nat)
  | timerFire (txId : Nat) (time : Nat)
  | expiredNotice (txId : Nat)
deriving DecidableEq, Repr

/-- One coordinator step. -/
def coordStep (s : CoordState) (e : CoordEvent) : CoordState × List BridgeMsg :=
  match e with
  | .beginSend ctx => ((beginSendTransaction s ctx).2.1, (beginSendTransaction s ctx).2.2)
  | .requestFinished txId t => promptRequestFinished s txId t
  | .timerFire txId t => fallbackTimerFire s txId t
  | .expiredNotice txId => contextExpired s txId

/-- The txIds assigned to transactions newly created by this event (one
for a send action hitting an idle coordinator, none otherwise). -/
def createdTxIds (s : CoordState) (e : CoordEvent) : List Nat :=
  match e with
  | .beginSend _ =>
    match s.activeSendTxId with
    | some _ => []
    | none => [s.sendTxCounter + 1]
  | _ => []

/-- Run a sequence of coordinator events, collecting the txIds of all
newly created transactions in creation order. -/
def coordRun : CoordState → List CoordEvent → CoordState × List Nat
  | s, [] => (s, [])
  | s, e :: es =>
    let created := createdTxIds s e
    let r := coordRun (coordStep s e).1 es
    (r.1, created ++ r.2)

/-- A 29995-character text used to exercise the char budget. -/
def bigText : String := String.mk (List.replicate 29995 'x')

/-- A two-snippet state whose `totalChars` sits just under the default
30000-char budget. -/
def nearLimitState : ContextStackState :=
  { snippets :=
      [{ id := "a", text := "abc", sourceUrl := "u", timestamp := 0, charCount := 3 },
       { id := "b", text := bigText, sourceUrl := "u", timestamp := 0, charCount := 29995 }],
    totalChars := 29998, updatedAt := 0 }

/-- A two-snippet state with distinct texts, used to show `update` can
introduce duplicates. -/
def twoDistinctState : ContextStackState :=
  { snippets :=
      [{ id := "a", text := "abc", sourceUrl := "u", timestamp := 0, charCount := 3 },
       { id := "b", text := "xyz", sourceUrl := "u", timestamp := 0, charCount := 3 }],
    totalChars := 6, updatedAt := 0 }

theorem joinWith_body (n : Nat) (l : List Snippet) :
    joinWith "\n\n" ((List.enumFrom n l).map
      (fun p => "[Snippet " ++ toString (p.1 + 1) ++ "]\n" ++ p.2.text)) =
    specBody (n + 1) l := by
  induction l generalizing n with
  | nil => rfl
  | cons s rest ih =>
    cases rest with
    | nil => rfl
    | cons s2 rest2 =>
      have e1 : joinWith "\n\n" ((List.enumFrom n (s :: s2 :: rest2)).map
          (fun p => "[Snippet " ++ toString (p.1 + 1) ++ "]\n" ++ p.2.text)) =
          "[Snippet " ++ toString (n + 1) ++ "]\n" ++ s.text ++ "\n\n" ++
          joinWith "\n\n" ((List.enumFrom (n + 1) (s2 :: rest2)).map
            (fun p => "[Snippet " ++ toString (p.1 + 1) ++ "]\n" ++ p.2.text)) := rfl
      rw [e1, ih (n + 1)]
      rfl

theorem surround_eq (body : String) :
    joinWith "\n"
      ["### SELECTED CONTEXT (User-Collected)",
       "IMPORTANT: Do not let this context influence anything outside this specific message/prompt request.",
       "The following snippets were highlighted from earlier conversation:",
       "",
       body,
       "",
       "User Question:"] = specHeader ++ body ++ specFooter := by
  have hpre : specHeader =
      "### SELECTED CONTEXT (User-Collected)" ++ "\n" ++
      ("IMPORTANT: Do not let this context influence anything outside this specific message/prompt request." ++ "\n" ++
      ("The following snippets were highlighted from earlier conversation:" ++ "\n" ++
      ("" ++ "\n"))) := by decide
  have hpost : specFooter = "\n" ++ ("" ++ "\n" ++ "User Question:") := by decide
  simp only [joinWith, hpre, hpost, String.append_assoc]

/-- C5: `compile` produces exactly the fixed header lines, then each
snippet in input order as `[Snippet N]` (1-based) followed by its raw
text, consecutive snippets separated by a blank line, then the
`User Question:` footer; for the empty list the output is the fixed
header/footer with an empty body and no `[Snippet N]` markers. -/
theorem compile_matches_fixed_format :
    (∀ l : List Snippet, formatCompiledContext l = specCompile l) ∧
    formatCompiledContext [] = specHeader ++ "" ++ specFooter ∧
    containsSeg (formatCompiledContext []).data "[Snippet ".data = false := by
  refine ⟨?_, by decide, by decide⟩
  intro l
  simp only [formatCompiledContext]
  rw [surround_eq]
  have henum : l.enum = List.enumFrom 0 l := rfl
  rw [henum, joinWith_body 0 l]
  rfl

/-- C7 counterexample: starting from an empty stack, sequentially adding
76 snippets of 1 character each does NOT yield a stack of length 75 with
`totalChars` 75 — every 1-character add is rejected as too short
(trimmed length < 3), so the final stack is empty. -/
theorem seventySix_one_char_adds_all_rejected :
    (addTexts DEFAULT_STORAGE_LIMITS (List.replicate 76 "a")).snippets.length = 0 ∧
    (addTexts DEFAULT_STORAGE_LIMITS (List.replicate 76 "a")).totalChars = 0 ∧
    ¬ (addTexts DEFAULT_STORAGE_LIMITS (List.replicate 76 "a")).snippets.length = 75 := by
  refine ⟨by decide, by decide, by decide⟩

/-- C7 amended: starting from an empty stack, sequentially adding 76
pairwise-distinct snippets of minimum valid length 3 (`s00` … `s75`)
yields a final stack of length 75 with the oldest entry (`s00`) dropped
— the surviving texts are exactly `s01` … `s75` in order — and
`totalChars` equal to 75 · 3 = 225. -/
theorem seventySix_min_length_adds :
    (addTexts DEFAULT_STORAGE_LIMITS texts76).snippets.length = 75 ∧
    (addTexts DEFAULT_STORAGE_LIMITS texts76).totalChars = 225 ∧
    (addTexts DEFAULT_STORAGE_LIMITS texts76).snippets.map Snippet.text =
      (List.range 75).map
        (fun i => "s" ++ toString ((i + 1) / 10) ++ toString ((i + 1) % 10)) := by
  refine ⟨by decide, by decide, by decide⟩

/-- C6: while a send transaction with txId `t` is pending, a
`prompt-request-finished` report carrying a numeric txId `n ≠ t` is
ignored: the handler changes nothing, dispatches nothing, and the
coordinator remains `Pending` for `t`. -/
theorem mismatched_finished_report_ignored (s : CoordState) (t n time : Nat)
    (hactive : s.activeSendTxId = some t) (hne : n ≠ t) :
    promptRequestFinished s (some n) time = (s, []) ∧
    ((promptRequestFinished s (some n) time).1).activeSendTxId = some t := by
  have h1 : promptRequestFinished s (some n) time = (s, []) := by
    unfold promptRequestFinished
    rw [hactive]
    simp [hne]
  exact ⟨h1, by rw [h1]; exact hactive⟩

/-- Witness for C6: coordinator pending for txId 1 ignores a
`prompt-request-finished` report for txId 2. -/
theorem mismatched_finished_report_ignored_witness :
    promptRequestFinished
        { sendTxCounter := 1, activeSendTxId := some 1,
          pendingClearTimers := [1], stack := clear 0 } (some 2) 7 =
      ({ sendTxCounter := 1, activeSendTxId := some 1,
         pendingClearTimers := [1], stack := clear 0 }, []) ∧
    ((promptRequestFinished
        { sendTxCounter := 1, activeSendTxId := some 1,
          pendingClearTimers := [1], stack := clear 0 } (some 2) 7).1).activeSendTxId =
      some 1 :=
  mismatched_finished_report_ignored _ 1 2 7 rfl (by decide)

/-- C4: a send transaction begun on an idle coordinator whose fallback
timer then fires (no matching network report arrived within the TTL)
self-expires: the coordinator returns to `Idle` with no timer left, the
bridge is told to drop its pending context (`clear-context` dispatched),
and the context stack is cleared to empty. -/
theorem ttl_expiry_fails_safe (s : CoordState) (ctx : String) (time : Nat)
    (hidle : s.activeSendTxId = none) :
    fallbackTimerFire (beginSendTransaction s ctx).2.1 (beginSendTransaction s ctx).1 time =
      ({ sendTxCounter := s.sendTxCounter + 1, activeSendTxId := none,
         pendingClearTimers := [], stack := clear time }, [BridgeMsg.clearContext]) := by
  unfold beginSendTransaction
  rw [hidle]
  simp [scheduleFallbackClear, fallbackTimerFire, resolveSendTransaction,
    clearContextAfterSend]

theorem resolve_counter (s : CoordState) (txId : Option Nat) :
    (resolveSendTransaction s txId).sendTxCounter = s.sendTxCounter := by
  cases txId <;> rfl

theorem clearCtx_counter (s : CoordState) (time : Nat) :
    ((clearContextAfterSend s time).1).sendTxCounter = s.sendTxCounter := rfl

theorem coordStep_counter_mono (s : CoordState) (e : CoordEvent) :
    s.sendTxCounter ≤ ((coordStep s e).1).sendTxCounter := by
  cases e with
  | beginSend ctx =>
    simp only [coordStep, beginSendTransaction]
    split
    · exact Nat.le_refl _
    · simp [scheduleFallbackClear]
  | requestFinished txId t =>
    simp only [coordStep, promptRequestFinished]
    split
    · exact Nat.le_refl _
    · split
      · split
        · exact Nat.le_refl _
        · rw [clearCtx_counter, resolve_counter]
      · rw [clearCtx_counter, resolve_counter]
  | timerFire txId t =>
    simp only [coordStep, fallbackTimerFire]
    split
    · rw [clearCtx_counter, resolve_counter]
    · exact Nat.le_refl _
  | expiredNotice txId =>
    simp only [coordStep, contextExpired]
    rw [resolve_counter]

theorem createdTxIds_spec (s : CoordState) (e : CoordEvent) (x : Nat)
    (hx : x ∈ createdTxIds s e) :
    x = s.sendTxCounter + 1 ∧
    ((coordStep s e).1).sendTxCounter = s.sendTxCounter + 1 := by
  cases e with
  | beginSend ctx =>
    simp only [createdTxIds] at hx
    cases h : s.activeSendTxId with
    | some t => rw [h] at hx; simp at hx
    | none =>
      rw [h] at hx
      simp only [List.mem_singleton] at hx
      refine ⟨hx, ?_⟩
      simp only [coordStep, beginSendTransaction, h]
      rfl
  | requestFinished txId t => simp [createdTxIds] at hx
  | timerFire txId t => simp [createdTxIds] at hx
  | expiredNotice txId => simp [createdTxIds] at hx

theorem coordRun_cons (s : CoordState) (e : CoordEvent) (es : List CoordEvent) :
    coordRun s (e :: es) =
      ((coordRun (coordStep s e).1 es).1,
       createdTxIds s e ++ (coordRun (coordStep s e).1 es).2) := rfl

theorem coordRun_created_sorted (events : List CoordEvent) (s : CoordState) :
    List.Pairwise (· < ·) ((coordRun s events).2) ∧
    ∀ x ∈ (coordRun s events).2, s.sendTxCounter < x := by
  induction events generalizing s with
  | nil => exact ⟨List.Pairwise.nil, by simp [coordRun]⟩
  | cons e es ih =>
    obtain ⟨ihp, ihb⟩ := ih (coordStep s e).1
    rw [coordRun_cons]
    constructor
    · apply List.pairwise_append.mpr
      refine ⟨?_, ihp, ?_⟩
      · cases e with
        | beginSend ctx =>
          simp only [createdTxIds]
          cases s.activeSendTxId <;> simp
        | requestFinished txId t => simp [createdTxIds]
        | timerFire txId t => simp [createdTxIds]
        | expiredNotice txId => simp [createdTxIds]
      · intro x hx y hy
        obtain ⟨hx1, hstep⟩ := createdTxIds_spec s e x hx
        have hy1 := ihb y hy
        omega
    · intro x hx
      rcases List.mem_append.mp hx with hx | hx
      · exact (createdTxIds_spec s e x hx).1 ▸ Nat.lt_succ_self _
      · exact Nat.lt_of_le_of_lt (coordStep_counter_mono s e) (ihb x hx)

/-- C3: at most one send transaction is live at a time — calling
`beginSendTransaction` while a transaction is pending returns the
existing txId with the state unchanged and dispatches nothing — and
across any event sequence from the initial coordinator state the txIds
assigned to newly created transactions are strictly increasing. -/
theorem single_live_transaction_and_monotone_txids :
    (∀ (s : CoordState) (ctx : String) (t : Nat),
        s.activeSendTxId = some t → beginSendTransaction s ctx = (t, s, [])) ∧
    (∀ (stack0 : ContextStackState) (events : List CoordEvent),
        List.Pairwise (· < ·) ((coordRun (initCoord stack0) events).2)) := by
  constructor
  · intro s ctx t hactive
    unfold beginSendTransaction
    rw [hactive]
  · intro stack0 events
    exact (coordRun_created_sorted events (initCoord stack0)).1

/-- Witness for C3: a pending coordinator returns its existing txId 3 on
a second begin, and a concrete begin/expire/begin trace creates the
strictly increasing txIds 1 and 2. -/
theorem single_live_transaction_witness :
    beginSendTransaction
        { sendTxCounter := 3, activeSendTxId := some 3,
          pendingClearTimers := [3], stack := clear 0 } "newctx" =
      (3, { sendTxCounter := 3, activeSendTxId := some 3,
            pendingClearTimers := [3], stack := clear 0 }, []) ∧
    List.Pairwise (· < ·)
      ((coordRun (initCoord (clear 0))
        [CoordEvent.beginSend "a", CoordEvent.timerFire 1 9,
         CoordEvent.beginSend "b"]).2) :=
  ⟨single_live_transaction_and_monotone_txids.1 _ "newctx" 3 rfl,
   single_live_transaction_and_monotone_txids.2 (clear 0) _⟩

/-- Witness for C4: on a fresh coordinator with a two-snippet stack,
begin a transaction and let its fallback timer fire. -/
theorem ttl_expiry_fails_safe_witness :
    fallbackTimerFire (beginSendTransaction (initCoord twoDistinctState) "ctx").2.1
        (beginSendTransaction (initCoord twoDistinctState) "ctx").1 9 =
      ({ sendTxCounter := 1, activeSendTxId := none,
         pendingClearTimers := [], stack := clear 9 }, [BridgeMsg.clearContext]) :=
  ttl_expiry_fails_safe (initCoord twoDistinctState) "ctx" 9 rfl

theorem charInvariant_step (limits : StorageLimits) (s : ContextStackState)
    (h : charInvariant s) (op : EngineOp) : charInvariant (applyOp limits s op) := by
  cases op with
  | add t u i tm =>
    simp only [applyOp, addSnippet]
    split
    · exact h
    · split
      · exact h
      · split
        · exact h
        · split
          · exact h
          · rfl
  | remove id tm => rfl
  | update id t tm => rfl
  | reorder i j tm =>
    simp only [applyOp, reorderSnippet]
    split
    · exact h
    · rfl
  | clearAll tm => rfl

theorem charInvariant_runOps (limits : StorageLimits) (ops : List EngineOp)
    (s : ContextStackState) (h : charInvariant s) :
    charInvariant (runOps limits s ops) := by
  induction ops generalizing s with
  | nil => exact h
  | cons op ops ih => exact ih _ (charInvariant_step limits s h op)

/-- C2: after every operation in any finite sequence of
add/remove/update/reorder/clear calls starting from the empty state, the
state satisfies `totalChars == sum(snippets[*].charCount)`.  (Every
intermediate point of a sequence is the end of its prefix, so
quantifying over all sequences covers "after every operation".) -/
theorem totalChars_invariant_all_sequences (limits : StorageLimits) (t0 : Nat)
    (ops : List EngineOp) :
    charInvariant (runOps limits (clear t0) ops) :=
  charInvariant_runOps limits ops (clear t0) rfl

theorem addSnippet_short (limits : StorageLimits) (state : ContextStackState)
    (it u i : String) (tm : Nat) (h : (normalizeText it).length < 3) :
    addSnippet limits state it u i tm =
      { ok := false, reason := some "Selection too short", state := state } := by
  simp only [addSnippet]
  rw [if_pos h]

theorem addSnippet_large (limits : StorageLimits) (state : ContextStackState)
    (it u i : String) (tm : Nat) (h1 : ¬ (normalizeText it).length < 3)
    (h2 : (normalizeText it).length > 10000) :
    addSnippet limits state it u i tm =
      { ok := false, reason := some "Selection too large", state := state } := by
  simp only [addSnippet]
  rw [if_neg h1, if_pos h2]

theorem addSnippet_dupl (limits : StorageLimits) (state : ContextStackState)
    (it u i : String) (tm : Nat) (h1 : ¬ (normalizeText it).length < 3)
    (h2 : ¬ (normalizeText it).length > 10000)
    (h3 : state.snippets.any (fun existing => existing.text = normalizeText it) = true) :
    addSnippet limits state it u i tm =
      { ok := false, reason := some "Duplicate snippet", state := state } := by
  simp only [addSnippet]
  rw [if_neg h1, if_neg h2, if_pos h3]

theorem addSnippet_over (limits : StorageLimits) (state : ContextStackState)
    (it u i : String) (tm : Nat) (h1 : ¬ (normalizeText it).length < 3)
    (h2 : ¬ (normalizeText it).length > 10000)
    (h3 : ¬ state.snippets.any (fun existing => existing.text = normalizeText it) = true)
    (h4 : sumCharCounts (sliceLast (state.snippets ++ [candidateSnippet it u i tm])
      limits.maxSnippets) > limits.maxTotalChars) :
    addSnippet limits state it u i tm =
      { ok := false, reason := some "Context stack char limit reached", state := state } := by
  simp only [addSnippet]
  simp only [candidateSnippet] at h4
  rw [if_neg h1, if_neg h2, if_neg h3, if_pos h4]

theorem addSnippet_success (limits : StorageLimits) (state : ContextStackState)
    (it u i : String) (tm : Nat) (h1 : ¬ (normalizeText it).length < 3)
    (h2 : ¬ (normalizeText it).length > 10000)
    (h3 : ¬ state.snippets.any (fun existing => existing.text = normalizeText it) = true)
    (h4 : sumCharCounts (sliceLast (state.snippets ++ [candidateSnippet it u i tm])
      limits.maxSnippets) ≤ limits.maxTotalChars) :
    addSnippet limits state it u i tm =
      { ok := true, reason := none,
        state :=
          { snippets := sliceLast (state.snippets ++ [candidateSnippet it u i tm])
              limits.maxSnippets,
            totalChars := sumCharCounts
              (sliceLast (state.snippets ++ [candidateSnippet it u i tm])
                limits.maxSnippets),
            updatedAt := tm } } := by
  simp only [addSnippet]
  simp only [candidateSnippet] at h4
  rw [if_neg h1, if_neg h2, if_neg h3, if_neg (by omega)]
  rfl

theorem sliceLast_pos (l : List Snippet) (m : Nat) (h : 1 ≤ m) :
    sliceLast l m = mostRecent m l := by
  unfold sliceLast mostRecent
  rw [if_neg (by omega)]

theorem mem_sliceLast_append (l : List Snippet) (s : Snippet) (m : Nat) :
    s ∈ sliceLast (l ++ [s]) m := by
  unfold sliceLast
  split
  · simp
  · rw [List.drop_append_eq_append_drop]
    apply List.mem_append_right
    have h0 : (l ++ [s]).length - m - l.length = 0 := by
      rw [List.length_append]
      simp only [List.length_singleton]
      omega
    rw [h0]
    simp

/-- C1: for every prior state and input, `addSnippet` rejects too-short
(trimmed length < 3), too-large (length > 10000), duplicate (some
existing snippet's text equals the normalized text exactly), and
over-budget (the truncated candidate's recomputed `totalChars` exceeds
`maxTotalChars`) inputs, in that priority order, each time returning the
prior state unchanged (nothing is persisted); otherwise it appends the
new snippet and truncates to the most recent `maxSnippets` entries. -/
theorem addSnippet_validation (limits : StorageLimits) (state : ContextStackState)
    (it u i : String) (tm : Nat) :
    ((normalizeText it).length < 3 →
      addSnippet limits state it u i tm =
        { ok := false, reason := some "Selection too short", state := state }) ∧
    (3 ≤ (normalizeText it).length → 10000 < (normalizeText it).length →
      addSnippet limits state it u i tm =
        { ok := false, reason := some "Selection too large", state := state }) ∧
    (3 ≤ (normalizeText it).length → (normalizeText it).length ≤ 10000 →
      (∃ y ∈ state.snippets, y.text = normalizeText it) →
      addSnippet limits state it u i tm =
        { ok := false, reason := some "Duplicate snippet", state := state }) ∧
    (3 ≤ (normalizeText it).length → (normalizeText it).length ≤ 10000 →
      ¬ (∃ y ∈ state.snippets, y.text = normalizeText it) →
      1 ≤ limits.maxSnippets →
      limits.maxTotalChars < sumCharCounts
        (mostRecent limits.maxSnippets (state.snippets ++ [candidateSnippet it u i tm])) →
      addSnippet limits state it u i tm =
        { ok := false, reason := some "Context stack char limit reached", state := state }) ∧
    (3 ≤ (normalizeText it).length → (normalizeText it).length ≤ 10000 →
      ¬ (∃ y ∈ state.snippets, y.text = normalizeText it) →
      1 ≤ limits.maxSnippets →
      sumCharCounts
        (mostRecent limits.maxSnippets (state.snippets ++ [candidateSnippet it u i tm])) ≤
        limits.maxTotalChars →
      addSnippet limits state it u i tm =
        { ok := true, reason := none,
          state :=
            { snippets := mostRecent limits.maxSnippets
                (state.snippets ++ [candidateSnippet it u i tm]),
              totalChars := sumCharCounts (mostRecent limits.maxSnippets
                (state.snippets ++ [candidateSnippet it u i tm])),
              updatedAt := tm } }) := by
  have hany : ∀ (hdup : ¬ ∃ y ∈ state.snippets, y.text = normalizeText it),
      ¬ state.snippets.any (fun existing => existing.text = normalizeText it) = true := by
    intro hdup hc
    rw [List.any_eq_true] at hc
    obtain ⟨y, hy, he⟩ := hc
    exact hdup ⟨y, hy, by simpa using he⟩
  refine ⟨fun h => addSnippet_short limits state it u i tm h,
    fun h1 h2 => addSnippet_large limits state it u i tm (by omega) h2,
    fun h1 h2 hdup => ?_, fun h1 h2 hdup hm hover => ?_,
    fun h1 h2 hdup hm hle => ?_⟩
  · apply addSnippet_dupl limits state it u i tm (by omega) (by omega)
    rw [List.any_eq_true]
    obtain ⟨y, hy, he⟩ := hdup
    exact ⟨y, hy, by simpa using he⟩
  · apply addSnippet_over limits state it u i tm (by omega) (by omega) (hany hdup)
    rw [sliceLast_pos _ _ hm]
    exact hover
  · rw [addSnippet_success limits state it u i tm (by omega) (by omega) (hany hdup)
      (by rw [sliceLast_pos _ _ hm]; exact hle)]
    rw [sliceLast_pos _ _ hm]

/-- Witness for C1: a 2-character add is rejected with the stack
untouched; a valid add of `" abc "` trims, appends and recomputes. -/
theorem addSnippet_validation_witness :
    addSnippet DEFAULT_STORAGE_LIMITS (clear 0) "ab" "u" "id1" 1 =
      { ok := false, reason := some "Selection too short", state := clear 0 } ∧
    addSnippet DEFAULT_STORAGE_LIMITS (clear 0) " abc " "u" "id1" 1 =
      { ok := true, reason := none,
        state :=
          { snippets := [{ id := "id1", text := "abc", sourceUrl := "u",
                           timestamp := 1, charCount := 3 }],
            totalChars := 3, updatedAt := 1 } } := by
  constructor
  · exact (addSnippet_validation DEFAULT_STORAGE_LIMITS (clear 0) "ab" "u" "id1" 1).1
      (by decide)
  · exact (addSnippet_validation DEFAULT_STORAGE_LIMITS (clear 0) " abc " "u" "id1" 1).2.2.2.2
      (by decide) (by decide) (by simp [clear]) (by decide) (by decide)

theorem addSnippet_ok_conditions (limits : StorageLimits) (state : ContextStackState)
    (it u i : String) (tm : Nat)
    (h : (addSnippet limits state it u i tm).ok = true) :
    3 ≤ (normalizeText it).length ∧ (normalizeText it).length ≤ 10000 := by
  by_cases h1 : (normalizeText it).length < 3
  · rw [addSnippet_short limits state it u i tm h1] at h
    simp at h
  by_cases h2 : (normalizeText it).length > 10000
  · rw [addSnippet_large limits state it u i tm h1 h2] at h
    simp at h
  exact ⟨by omega, by omega⟩

theorem addSnippet_ok_state (limits : StorageLimits) (state : ContextStackState)
    (it u i : String) (tm : Nat)
    (h : (addSnippet limits state it u i tm).ok = true) :
    (addSnippet limits state it u i tm).state.snippets =
      sliceLast (state.snippets ++ [candidateSnippet it u i tm]) limits.maxSnippets := by
  obtain ⟨h3, h10⟩ := addSnippet_ok_conditions limits state it u i tm h
  by_cases hd : state.snippets.any (fun existing => existing.text = normalizeText it) = true
  · rw [addSnippet_dupl limits state it u i tm (by omega) (by omega) hd] at h
    simp at h
  by_cases hc : sumCharCounts (sliceLast (state.snippets ++ [candidateSnippet it u i tm])
      limits.maxSnippets) ≤ limits.maxTotalChars
  · rw [addSnippet_success limits state it u i tm (by omega) (by omega) hd hc]
  · rw [addSnippet_over limits state it u i tm (by omega) (by omega) hd (by omega)] at h
    simp at h

/-- C8: after any successful add, an immediately following add whose text
normalizes to the same string is rejected with `Duplicate` and changes
nothing — whatever whitespace differences the two raw inputs had. -/
theorem duplicate_add_rejected (limits : StorageLimits) (state : ContextStackState)
    (t1 u1 i1 : String) (tm1 : Nat) (t2 u2 i2 : String) (tm2 : Nat)
    (hok : (addSnippet limits state t1 u1 i1 tm1).ok = true)
    (hnorm : normalizeText t2 = normalizeText t1) :
    addSnippet limits (addSnippet limits state t1 u1 i1 tm1).state t2 u2 i2 tm2 =
      { ok := false, reason := some "Duplicate snippet",
        state := (addSnippet limits state t1 u1 i1 tm1).state } := by
  obtain ⟨h3, h10⟩ := addSnippet_ok_conditions limits state t1 u1 i1 tm1 hok
  have hstate := addSnippet_ok_state limits state t1 u1 i1 tm1 hok
  have hmem : candidateSnippet t1 u1 i1 tm1 ∈
      (addSnippet limits state t1 u1 i1 tm1).state.snippets := by
    rw [hstate]
    exact mem_sliceLast_append _ _ _
  apply addSnippet_dupl
  · rw [hnorm]; omega
  · rw [hnorm]; omega
  · rw [List.any_eq_true]
    exact ⟨candidateSnippet t1 u1 i1 tm1, hmem, by simp [candidateSnippet, hnorm]⟩

/-- Witness for C8: adding `"abc"` then `"  abc  "` (same trimmed text)
is rejected the second time with `Duplicate snippet`. -/
theorem duplicate_add_rejected_witness :
    addSnippet DEFAULT_STORAGE_LIMITS
        (addSnippet DEFAULT_STORAGE_LIMITS (clear 0) "abc" "u" "i1" 1).state
        "  abc  " "u2" "i2" 2 =
      { ok := false, reason := some "Duplicate snippet",
        state := (addSnippet DEFAULT_STORAGE_LIMITS (clear 0) "abc" "u" "i1" 1).state } :=
  duplicate_add_rejected DEFAULT_STORAGE_LIMITS (clear 0) "abc" "u" "i1" 1
    "  abc  " "u2" "i2" 2 (by decide) (by decide)

theorem spliceStart_coe_le (len k : Nat) (h : k ≤ len) : spliceStart len (k : Int) = k := by
  unfold spliceStart
  rw [if_neg (by omega)]
  have h2 : ((k : Int)).toNat = k := Int.toNat_ofNat k
  rw [h2]
  omega

theorem insertIdx_getElem_eraseIdx {α : Type} (l : List α) (a : Nat) (h : a < l.length) :
    (l.eraseIdx a).insertIdx a l[a] = l := by
  induction l generalizing a with
  | nil => simp at h
  | cons x xs ih =>
    cases a with
    | zero => simp
    | succ n =>
      have hn : n < xs.length := by simpa using h
      simp only [List.eraseIdx_cons_succ, List.getElem_cons_succ, List.insertIdx_succ_cons]
      rw [ih n hn]

theorem reorderSnippet_valid (state : ContextStackState) (i j tm : Nat)
    (hi : i < state.snippets.length) (hj : j < state.snippets.length) :
    reorderSnippet state (i : Int) (j : Int) tm =
      { snippets := (state.snippets.eraseIdx i).insertIdx j
          (state.snippets.get ⟨i, hi⟩),
        totalChars := sumCharCounts ((state.snippets.eraseIdx i).insertIdx j
          (state.snippets.get ⟨i, hi⟩)),
        updatedAt := tm } := by
  have hn1 : (state.snippets.eraseIdx i).length = state.snippets.length - 1 := by
    rw [List.length_eraseIdx, if_pos hi]
  simp only [reorderSnippet]
  rw [spliceStart_coe_le _ _ (by omega), List.getElem?_eq_getElem hi]
  rw [hn1, spliceStart_coe_le _ _ (by omega)]
  rfl

/-- C9: for valid positions `i` and `j` of the snippet sequence,
`reorder(i, j)` followed by `reorder(j, i)` with no other mutation in
between restores the original snippet order. -/
theorem reorder_round_trip (state : ContextStackState) (i j tm1 tm2 : Nat)
    (hi : i < state.snippets.length) (hj : j < state.snippets.length) :
    (reorderSnippet (reorderSnippet state (i : Int) (j : Int) tm1)
      (j : Int) (i : Int) tm2).snippets = state.snippets := by
  set l := state.snippets with hl
  have hn1 : (l.eraseIdx i).length = l.length - 1 := by
    rw [List.length_eraseIdx, if_pos hi]
  have hjle : j ≤ (l.eraseIdx i).length := by omega
  rw [reorderSnippet_valid state i j tm1 hi hj]
  have hmidlen : ((l.eraseIdx i).insertIdx j (l.get ⟨i, hi⟩)).length = l.length := by
    rw [List.length_insertIdx j _ hjle]
    omega
  have hj2 : j < ((l.eraseIdx i).insertIdx j (l.get ⟨i, hi⟩)).length := by omega
  have hi2 : i < ((l.eraseIdx i).insertIdx j (l.get ⟨i, hi⟩)).length := by omega
  rw [reorderSnippet_valid _ j i tm2 hj2 hi2]
  have hget : ((l.eraseIdx i).insertIdx j (l.get ⟨i, hi⟩)).get ⟨j, hj2⟩ = l.get ⟨i, hi⟩ := by
    have := List.getElem_insertIdx_self (l.eraseIdx i) (l.get ⟨i, hi⟩) j hjle
    simpa using this
  have herase : ((l.eraseIdx i).insertIdx j (l.get ⟨i, hi⟩)).eraseIdx j = l.eraseIdx i :=
    List.eraseIdx_insertIdx j (l.eraseIdx i)
  simp only [hget, herase]
  have hfin : (l.eraseIdx i).insertIdx i l[i] = l := insertIdx_getElem_eraseIdx l i hi
  simpa using hfin

/-- Witness for C9: on a concrete two-snippet stack, moving position 0
to 1 and then 1 back to 0 restores the original order. -/
theorem reorder_round_trip_witness :
    (reorderSnippet (reorderSnippet twoDistinctState ((0 : Nat) : Int) ((1 : Nat) : Int) 5)
      ((1 : Nat) : Int) ((0 : Nat) : Int) 6).snippets = twoDistinctState.snippets :=
  reorder_round_trip twoDistinctState 0 1 5 6 (by decide) (by decide)

theorem dropWhile_replicate_not {α : Type} (p : α → Bool) (a : α) (h : p a = false)
    (n : Nat) : (List.replicate n a).dropWhile p = List.replicate n a := by
  cases n with
  | zero => rfl
  | succ m => simp [List.replicate, List.dropWhile_cons, h]

theorem trimChars_replicate_x (n : Nat) :
    trimChars (List.replicate n 'x') = List.replicate n 'x' := by
  unfold trimChars
  rw [dropWhile_replicate_not _ _ (by decide), List.reverse_replicate,
      dropWhile_replicate_not _ _ (by decide), List.reverse_replicate]

theorem normalizeText_bigText : normalizeText bigText = bigText := by
  show String.mk (trimChars (String.mk (List.replicate 29995 'x')).data) = bigText
  rw [show (String.mk (List.replicate 29995 'x')).data = List.replicate 29995 'x' from rfl]
  rw [trimChars_replicate_x]
  rfl

theorem normalizeText_bigText_length : (normalizeText bigText).length = 29995 := by
  rw [normalizeText_bigText]
  show (String.mk (List.replicate 29995 'x')).length = 29995
  rw [String.length_mk, List.length_replicate]

/-- C10: `updateSnippet(id, newText)` never rejects and enforces none of
add's validation rules: for every state it keeps the sequence length,
replaces exactly the snippet whose id matches with the trimmed `newText`
(updating `charCount` and `timestamp`), leaves others untouched, and
persists the recomputed result — even when the trimmed text is shorter
than 3 characters (`"x"`), duplicates another snippet's text, is longer
than 10000 characters (`bigText`, length 29995), or pushes the
recomputed `totalChars` beyond `maxTotalChars` (30003 > 30000), so
neither the char budget nor the no-duplicates property is preserved. -/
theorem update_skips_validation :
    (∀ (state : ContextStackState) (id t : String) (tm : Nat),
      (updateSnippet state id t tm).snippets.length = state.snippets.length ∧
      charInvariant (updateSnippet state id t tm)) ∧
    (∀ (state : ContextStackState) (id t : String) (tm k : Nat) (y : Snippet),
      state.snippets[k]? = some y → y.id = id →
      (updateSnippet state id t tm).snippets[k]? =
        some { y with text := normalizeText t,
                      charCount := (normalizeText t).length, timestamp := tm }) ∧
    (∀ (state : ContextStackState) (id t : String) (tm k : Nat) (y : Snippet),
      state.snippets[k]? = some y → ¬ y.id = id →
      (updateSnippet state id t tm).snippets[k]? = some y) ∧
    ((updateSnippet twoDistinctState "a" "x" 1).snippets.map Snippet.text =
      ["x", "xyz"] ∧ ("x" : String).length < 3) ∧
    ((updateSnippet twoDistinctState "b" "abc" 1).snippets.map Snippet.text =
      ["abc", "abc"]) ∧
    ((updateSnippet twoDistinctState "a" bigText 1).snippets.map Snippet.charCount =
      [29995, 3] ∧ 10000 < 29995) ∧
    (nearLimitState.totalChars ≤ DEFAULT_STORAGE_LIMITS.maxTotalChars ∧
      charInvariant nearLimitState ∧
      DEFAULT_STORAGE_LIMITS.maxTotalChars <
        (updateSnippet nearLimitState "a" "abcdefgh" 1).totalChars) := by
  have hmain : ∀ (state : ContextStackState) (id t : String) (tm k : Nat),
      (updateSnippet state id t tm).snippets[k]? =
        Option.map (fun snippet =>
          if snippet.id ≠ id then snippet
          else { snippet with text := normalizeText t,
                              charCount := (normalizeText t).length, timestamp := tm })
          state.snippets[k]? := by
    intro state id t tm k
    simp only [updateSnippet]
    rw [List.getElem?_map]
  refine ⟨fun state id t tm => ⟨by simp [updateSnippet], rfl⟩,
    fun state id t tm k y hk hy => ?_, fun state id t tm k y hk hy => ?_,
    ⟨?_, by decide⟩, ?_, ⟨?_, by decide⟩, ⟨by decide, rfl, ?_⟩⟩
  · rw [hmain, hk]
    simp only [Option.map_some']
    rw [if_neg (by simp [hy])]
  · rw [hmain, hk]
    simp only [Option.map_some']
    rw [if_pos hy]
  · decide
  · decide
  · simp only [updateSnippet, twoDistinctState, List.map_cons, List.map_nil]
    rw [if_neg (by decide), if_pos (by decide)]
    simp only [List.map_cons, List.map_nil]
    rw [normalizeText_bigText_length]
  · simp only [updateSnippet, nearLimitState, List.map_cons, List.map_nil]
    rw [if_neg (by decide), if_pos (by decide)]
    show DEFAULT_STORAGE_LIMITS.maxTotalChars <
      sumCharCounts [_, _]
    rw [show (normalizeText "abcdefgh").length = 8 from by decide]
    decide


/-- Witness for C10: concretely updating snippet `"a"` of a two-snippet
state to the 1-character text `"x"` rewrites exactly that snippet and
leaves the other untouched. -/
theorem update_skips_validation_witness :
    (updateSnippet twoDistinctState "a" "x" 1).snippets[0]? =
      some { id := "a", text := "x", sourceUrl := "u", timestamp := 1, charCount := 1 } ∧
    (updateSnippet twoDistinctState "a" "x" 1).snippets[1]? =
      some { id := "b", text := "xyz", sourceUrl := "u", timestamp := 0, charCount := 3 } := by
  constructor
  · have h := update_skips_validation.2.1 twoDistinctState "a" "x" 1 0
      { id := "a", text := "abc", sourceUrl := "u", timestamp := 0, charCount := 3 }
      (by decide) (by decide)
    rw [h]
    decide
  · exact update_skips_validation.2.2.1 twoDistinctState "a" "x" 1 1
      { id := "b", text := "xyz", sourceUrl := "u", timestamp := 0, charCount := 3 }
      (by decide) (by decide)

end Snippets
